import Mathlib

/-!
Shallow embedding of `src/weather_analysis.py` (weather-data-visualizer).

The program is a pandas pipeline over a table of weather records.  We model a
DataFrame as a Lean list of rows.  A raw cell of a measurement column is either
NaN (`Cell.na`), a value that `pd.to_numeric(errors="coerce")` turns into a
number (`Cell.num q`, with exact rationals standing for floats), or a non-null
value that fails numeric coercion (`Cell.nonnum`, e.g. the string "bad").
A raw cell of the Date column is either NaN, a value `pd.to_datetime` cannot
parse at all (`DateCell.bad`), or a date-shaped value `DateCell.val d` that
parses iff `d` is a valid calendar date (`to_datetime` rejects e.g. 2023-02-30
under `errors="coerce"`, yielding NaT).
-/

/-- A calendar date as carried by a pandas timestamp (time of day unused). -/
structure Date where
  year : Nat
  month : Nat
  day : Nat
deriving DecidableEq, Repr

def Date.isLeap (y : Nat) : Bool :=
  (y % 4 == 0 && y % 100 != 0) || y % 400 == 0

def Date.daysInMonth (y m : Nat) : Nat :=
  if m == 2 then (if Date.isLeap y then 29 else 28)
  else if m == 4 || m == 6 || m == 9 || m == 11 then 30
  else 31

/-- Validity of a calendar date, as enforced by `pd.to_datetime`. -/
def Date.isValid (d : Date) : Bool :=
  1 ≤ d.month && d.month ≤ 12 && 1 ≤ d.day && d.day ≤ Date.daysInMonth d.year d.month

instance : Inhabited Date := ⟨⟨1970, 1, 1⟩⟩

/-- A raw measurement cell: NaN, a numerically coercible value, or a non-null
value that `pd.to_numeric(errors="coerce")` maps to NaN. -/
inductive Cell where
  | na
  | num (q : ℚ)
  | nonnum
deriving DecidableEq, Repr

/-- A raw Date-column cell: NaN, an unparseable value, or a date-shaped value. -/
inductive DateCell where
  | na
  | bad
  | val (d : Date)
deriving DecidableEq, Repr

def Cell.isna : Cell → Bool
  | .na => true
  | _ => false

def DateCell.isna : DateCell → Bool
  | .na => true
  | _ => false

/-- `pd.to_numeric(x, errors="coerce")`: numbers pass through, everything else
becomes NaN (`none`). -/
def toNumeric : Cell → Option ℚ
  | .num q => some q
  | _ => none

/-- `pd.to_datetime(x, errors="coerce")`: NaN and unparseable values become NaT
(`none`); a date-shaped value parses iff it is a valid calendar date. -/
def parseDate : DateCell → Option Date
  | .val d => if d.isValid then some d else none
  | _ => none

/-- A row of the raw input table.  The script only ever reads the four known
columns, so the model carries exactly those. -/
structure RawRow where
  date : DateCell
  temp : Cell
  rain : Cell
  hum : Cell
deriving DecidableEq, Repr

/-- A row after the Date column has been parsed and unparseable rows dropped. -/
structure DatedRow where
  date : Date
  temp : Cell
  rain : Cell
  hum : Cell
deriving DecidableEq, Repr

/-- A row of the cleaned table: measurement cells are numeric or (only when a
whole column had no valid sample) still missing. -/
structure CleanRow where
  date : Date
  temp : Option ℚ
  rain : Option ℚ
  hum : Option ℚ
deriving DecidableEq, Repr

instance : Inhabited CleanRow := ⟨⟨default, none, none, none⟩⟩

/-- `df.dropna(how="all")` (line 57): drop rows whose every cell is NaN. -/
def dropAllNA (df : List RawRow) : List RawRow :=
  df.filter fun r => !(r.date.isna && r.temp.isna && r.rain.isna && r.hum.isna)

/-- Lines 60-61: `df["Date"] = pd.to_datetime(df["Date"], errors="coerce")`
followed by `df.dropna(subset=["Date"])`. -/
def toDated (df : List RawRow) : List DatedRow :=
  df.filterMap fun r => (parseDate r.date).map fun d => ⟨d, r.temp, r.rain, r.hum⟩

/-- Line 65: keep only the columns Date, Temperature, Rainfall, Humidity.  The
model already carries exactly these four columns, so this stage is the
identity on the modelled fields. -/
def selectColumns (df : List DatedRow) : List DatedRow := df

/-- `df[col].mean()`: arithmetic mean of the non-NaN entries; NaN (`none`) when
there is no valid entry, as in pandas. -/
def meanOpt (xs : List (Option ℚ)) : Option ℚ :=
  let v := xs.filterMap id
  if v.isEmpty then none else some (v.sum / v.length)

/-- `Series.fillna(m)` at one cell: keep an observed value, replace NaN by `m`
(a no-op when `m` is itself NaN). -/
def fillna (v m : Option ℚ) : Option ℚ :=
  match v with
  | some q => some q
  | none => m

/-- Lines 68-72: for each measurement column, coerce to numeric, take the
column mean of the coerced values, and fill the column's NaNs with it.  The
columns are processed independently, each mean computed once before any fill
of that column. -/
def imputeColumns (df : List DatedRow) : List CleanRow :=
  let mt := meanOpt (df.map fun r => toNumeric r.temp)
  let mr := meanOpt (df.map fun r => toNumeric r.rain)
  let mh := meanOpt (df.map fun r => toNumeric r.hum)
  df.map fun r =>
    ⟨r.date, fillna (toNumeric r.temp) mt, fillna (toNumeric r.rain) mr,
      fillna (toNumeric r.hum) mh⟩

/-- `clean_weather_data` (lines 45-75): drop all-empty rows, parse dates and
drop unparseable ones, keep the four known columns, then impute each
measurement column with its mean. -/
def clean_weather_data (df : List RawRow) : List CleanRow :=
  imputeColumns (selectColumns (toDated (dropAllNA df)))

/-- A cleaned measurement cell seen again as a raw cell: a number, or NaN. -/
def optToCell : Option ℚ → Cell
  | some q => .num q
  | none => .na

/-- Reinjection of a cleaned row as a raw row, for feeding the cleaner its own
output: a cleaned date is a datetime value, a cleaned measurement is a number
or NaN. -/
def CleanRow.toRaw (r : CleanRow) : RawRow :=
  ⟨.val r.date, optToCell r.temp, optToCell r.rain, optToCell r.hum⟩

/-- A cleaned row seen as a date-parsed row (what the second run's date stage
recovers from the reinjected output). -/
def cleanRowToDated (r : CleanRow) : DatedRow :=
  ⟨r.date, optToCell r.temp, optToCell r.rain, optToCell r.hum⟩

/-- Column selectors, used to state the per-column claims uniformly. -/
inductive ColId where
  | temperature
  | rainfall
  | humidity
deriving DecidableEq, Repr

def rawCol : ColId → DatedRow → Cell
  | .temperature, r => r.temp
  | .rainfall, r => r.rain
  | .humidity, r => r.hum

def cleanCol : ColId → CleanRow → Option ℚ
  | .temperature, r => r.temp
  | .rainfall, r => r.rain
  | .humidity, r => r.hum

/-- The four season labels of `month_to_season` (lines 210-218). -/
inductive Season where
  | winter
  | spring
  | summer
  | autumn
deriving DecidableEq, Repr

/-- `month_to_season` (lines 210-218): months 12, 1, 2 are Winter; 3, 4, 5
Spring; 6, 7, 8 Summer; everything else falls to the `else` branch, Autumn. -/
def month_to_season (m : Nat) : Season :=
  if m = 12 ∨ m = 1 ∨ m = 2 then .winter
  else if m = 3 ∨ m = 4 ∨ m = 5 then .spring
  else if m = 6 ∨ m = 7 ∨ m = 8 then .summer
  else .autumn

/-- A cleaned row with the derived Month and Season columns appended. -/
structure SeasonRow extends CleanRow where
  monthNum : Nat
  season : Season
deriving DecidableEq, Repr

/-- `add_season_column` (lines 205-222): `df["Month"] = df["Date"].dt.month`
and `df["Season"] = df["Month"].apply(month_to_season)`. -/
def add_season_column (df : List CleanRow) : List SeasonRow :=
  df.map fun r => ⟨r, r.date.month, month_to_season r.date.month⟩

/-- One row of an aggregated table, for the agg dict
`{"Temperature": "mean", "Rainfall": "sum", "Humidity": "mean"}`:
pandas `mean` skips NaN (NaN on an all-NaN group), `sum` skips NaN
(0 on an all-NaN group). -/
structure Agg where
  tempMean : Option ℚ
  rainSum : ℚ
  humMean : Option ℚ
deriving DecidableEq, Repr

/-- Aggregation applied to one group of rows, shared verbatim by the monthly
and the seasonal grouping (lines 234-245 use the identical agg dict). -/
def aggregate (g : List SeasonRow) : Agg :=
  ⟨meanOpt (g.map fun r => r.temp), (g.filterMap fun r => r.rain).sum,
    meanOpt (g.map fun r => r.hum)⟩

/-- `df.groupby(key)` followed by the shared agg: one entry per key value
actually present in the table, carrying the aggregate of the rows with that
key.  (Entry order in the model is immaterial; the spec requires comparison
by key, and every claim below reads the result through `List.lookup`.) -/
def groupAgg {K : Type} [DecidableEq K] (key : SeasonRow → K)
    (df : List SeasonRow) : List (K × Agg) :=
  (df.map key).dedup.map fun k => (k, aggregate (df.filter fun r => key r = k))

/-- `group_by_month_and_season` (lines 225-253): add Month/Season to a copy of
the table, then group by Month and by Season with the same agg dict.  Only the
two aggregate tables are returned; the caller's table is untouched (the
mutation of `add_season_column` hits `df.copy()`). -/
def group_by_month_and_season (df : List CleanRow) :
    List (Nat × Agg) × List (Season × Agg) :=
  let d := add_season_column df
  (groupAgg (fun r => r.monthNum) d, groupAgg (fun r => r.season) d)

/-- Two-digit zero padding for the month and day of an ISO date string. -/
def pad2 (n : Nat) : String :=
  if n < 10 then "0" ++ toString n else toString n

/-- Rendering of a cleaned Date cell by `df.to_csv` (ISO date string). -/
def dateToISO (d : Date) : String :=
  toString d.year ++ "-" ++ pad2 d.month ++ "-" ++ pad2 d.day

/-- Rendering of a cleaned measurement cell by `df.to_csv` (NaN prints as the
empty field). -/
def cellToCSV : Option ℚ → String
  | none => ""
  | some q => toString q

/-- `export_cleaned_data` (lines 259-263): `df.to_csv(..., index=False)` as a
list of CSV records, a header row followed by one row per retained record with
exactly the columns Date, Temperature, Rainfall, Humidity. -/
def export_cleaned_data (df : List CleanRow) : List (List String) :=
  ["Date", "Temperature", "Rainfall", "Humidity"] ::
    df.map fun r => [dateToISO r.date, cellToCSV r.temp, cellToCSV r.rain, cellToCSV r.hum]

/-- The date written as "Day with highest rainfall" by `write_summary_report`
(line 280): `df.loc[df["Rainfall"].idxmax(), "Date"]`.  `idxmax` skips NaN and
returns the first index in table order attaining the maximum; `none` models
the degenerate all-NaN column on which pandas raises. -/
def max_rain_day (df : List CleanRow) : Option Date :=
  match (df.filterMap fun r => r.rain).max? with
  | none => none
  | some m => (df.find? fun r => r.rain = some m).map fun r => r.date

/-- The spec's scenario table:
`[("2023-01-05", 10, 0, 50), ("2023-01-06", "bad", 5, 60), ("2023-02-01", 20, 10, 70)]`. -/
def specScenario : List RawRow :=
  [⟨.val ⟨2023, 1, 5⟩, .num 10, .num 0, .num 50⟩,
   ⟨.val ⟨2023, 1, 6⟩, .nonnum, .num 5, .num 60⟩,
   ⟨.val ⟨2023, 2, 1⟩, .num 20, .num 10, .num 70⟩]

/-- The all-NaN raw row that `df.dropna(how="all")` removes. -/
def emptyRawRow : RawRow := ⟨.na, .na, .na, .na⟩

/-- A table whose Temperature column has no validly numeric value at all. -/
def degenerateTable : List RawRow := [⟨.val ⟨2023, 1, 5⟩, .nonnum, .num 1, .num 2⟩]

/-- A concrete cleaned table with the month January occurring in two different
years and one July row. -/
def bucketsTable : List CleanRow :=
  [⟨⟨2023, 1, 5⟩, some 10, some 0, some 50⟩,
   ⟨⟨2024, 1, 6⟩, some 20, some 4, some 60⟩,
   ⟨⟨2023, 7, 1⟩, some 30, some 2, some 70⟩]

/-- Lexicographic order on calendar dates ("earlier than or equal"). -/
def Date.le (a b : Date) : Bool :=
  a.year < b.year ||
    (a.year == b.year && (a.month < b.month || (a.month == b.month && a.day ≤ b.day)))

/-- Two rows tied at the maximum rainfall, with the later date first in table
order. -/
def tieTable : List CleanRow :=
  [⟨⟨2023, 5, 2⟩, some 12, some 5, some 40⟩,
   ⟨⟨2023, 5, 1⟩, some 11, some 5, some 45⟩]

/-! ### Helper lemmas -/

theorem fillna_some (q : ℚ) (m : Option ℚ) : fillna (some q) m = some q := rfl

theorem fillna_none (m : Option ℚ) : fillna none m = m := rfl

theorem fillna_none_right (v : Option ℚ) : fillna v none = v := by
  cases v <;> rfl

theorem meanOpt_eq_none_iff (xs : List (Option ℚ)) :
    meanOpt xs = none ↔ ∀ x ∈ xs, x = none := by
  simp only [meanOpt, List.isEmpty_iff]
  constructor
  · intro h x hx
    by_cases hnil : xs.filterMap id = []
    · have := List.filterMap_eq_nil_iff.1 hnil x hx
      simpa using this
    · simp [hnil] at h
  · intro h
    have : xs.filterMap id = [] := List.filterMap_eq_nil_iff.2 fun a ha => by
      simpa using h a ha
    simp [this]

theorem meanOpt_eq_some (xs : List (Option ℚ)) (h : xs.filterMap id ≠ []) :
    meanOpt xs = some ((xs.filterMap id).sum / (xs.filterMap id).length) := by
  simp [meanOpt, List.isEmpty_iff, h]

/-! ### C4: the season mapping -/

/-- C4: season assignment is a total function of the month number mapping each
of the 12 months to exactly one of the four seasons, with
Winter = {12, 1, 2}, Spring = {3, 4, 5}, Summer = {6, 7, 8},
Autumn = {9, 10, 11}; the four iff-characterisations make the mapping a
partition of the months (no month lands in two seasons). -/
theorem month_to_season_partition :
    ∀ m : Nat, m < 13 → 1 ≤ m →
      ((month_to_season m = Season.winter ↔ (m = 12 ∨ m = 1 ∨ m = 2)) ∧
       (month_to_season m = Season.spring ↔ (m = 3 ∨ m = 4 ∨ m = 5)) ∧
       (month_to_season m = Season.summer ↔ (m = 6 ∨ m = 7 ∨ m = 8)) ∧
       (month_to_season m = Season.autumn ↔ (m = 9 ∨ m = 10 ∨ m = 11))) := by
  have hw : ∀ m : Nat, m < 13 → 1 ≤ m →
      (month_to_season m = Season.winter ↔ (m = 12 ∨ m = 1 ∨ m = 2)) := by decide
  have hsp : ∀ m : Nat, m < 13 → 1 ≤ m →
      (month_to_season m = Season.spring ↔ (m = 3 ∨ m = 4 ∨ m = 5)) := by decide
  have hsu : ∀ m : Nat, m < 13 → 1 ≤ m →
      (month_to_season m = Season.summer ↔ (m = 6 ∨ m = 7 ∨ m = 8)) := by decide
  have ha : ∀ m : Nat, m < 13 → 1 ≤ m →
      (month_to_season m = Season.autumn ↔ (m = 9 ∨ m = 10 ∨ m = 11)) := by decide
  exact fun m hm h1 => ⟨hw m hm h1, hsp m hm h1, hsu m hm h1, ha m hm h1⟩

/-- Witness for C4 at the concrete month 4 (an April row is Spring and
nothing else). -/
theorem month_to_season_partition_witness :
    month_to_season 4 = Season.spring ∧ ¬ month_to_season 4 = Season.winter :=
  ⟨(month_to_season_partition 4 (by decide) (by decide)).2.1.2 (by decide),
   fun h => by simpa using (month_to_season_partition 4 (by decide) (by decide)).1.1 h⟩

/-! ### C6: the worked scenario -/

/-- Counterexample to C6 as stated: on the scenario table the seasonal
aggregate produced by `group_by_month_and_season` contains only the Winter
group; there is no Spring, Summer or Autumn entry whose rainfall sum could
equal 0 (pandas `groupby` emits only keys that occur in the data), so the
claimed "seasonal rainfall sums are 0 for Spring, Summer, and Autumn" is
false of the code's output. -/
theorem season_stats_scenario_missing_groups :
    ((group_by_month_and_season (clean_weather_data specScenario)).2.map Prod.fst
        = [Season.winter]) ∧
    (group_by_month_and_season (clean_weather_data specScenario)).2.lookup Season.spring = none ∧
    (group_by_month_and_season (clean_weather_data specScenario)).2.lookup Season.summer = none ∧
    (group_by_month_and_season (clean_weather_data specScenario)).2.lookup Season.autumn = none := by
  decide

/-- C6 amended: on the scenario table, cleaning replaces row 2's temperature
with mean(10, 20) = 15, the monthly rainfall sum is 5 for January and 10 for
February, the seasonal rainfall sum is 15 for Winter, and Spring, Summer and
Autumn (having no rows) are absent from the seasonal table. -/
theorem scenario_clean_and_group :
    ((clean_weather_data specScenario).map fun r => r.temp)
        = [some 10, some 15, some 20] ∧
    ((group_by_month_and_season (clean_weather_data specScenario)).1.lookup 1).map Agg.rainSum
        = some 5 ∧
    ((group_by_month_and_season (clean_weather_data specScenario)).1.lookup 2).map Agg.rainSum
        = some 10 ∧
    ((group_by_month_and_season (clean_weather_data specScenario)).2.lookup Season.winter).map Agg.rainSum
        = some 15 ∧
    (group_by_month_and_season (clean_weather_data specScenario)).2.lookup Season.spring = none ∧
    (group_by_month_and_season (clean_weather_data specScenario)).2.lookup Season.summer = none ∧
    (group_by_month_and_season (clean_weather_data specScenario)).2.lookup Season.autumn = none := by
  refine ⟨?_, ?_, ?_, ?_, ?_, ?_, ?_⟩ <;>
    · simp [clean_weather_data, imputeColumns, selectColumns, toDated, dropAllNA, specScenario,
        meanOpt, fillna, toNumeric, parseDate, Date.isValid, Date.daysInMonth, Date.isLeap,
        DateCell.isna, Cell.isna, group_by_month_and_season, add_season_column, groupAgg,
        aggregate, month_to_season, List.dedup, List.lookup, List.filter]
      try norm_num
      try rfl

/-! ### C8: order of the cleaning steps -/

/-- C8: the cleaner runs its stages in a fixed order — all-empty rows are
dropped first, then the Date column is parsed and unparseable rows silently
dropped, and only afterwards are the measurement columns coerced and imputed.
Consequently an all-empty row anywhere in the table, or a row whose date
fails to parse (whatever its measurement cells hold), vanishes without
affecting any imputed value, and no error is surfaced (the cleaner is a total
function). -/
theorem clean_weather_data_stage_order (df df₁ df₂ : List RawRow) (t r h : Cell) :
    clean_weather_data df = imputeColumns (selectColumns (toDated (dropAllNA df))) ∧
    clean_weather_data (df₁ ++ emptyRawRow :: df₂) = clean_weather_data (df₁ ++ df₂) ∧
    clean_weather_data (df₁ ++ (⟨.bad, t, r, h⟩ : RawRow) :: df₂)
        = clean_weather_data (df₁ ++ df₂) := by
  refine ⟨rfl, ?_, ?_⟩
  · simp [clean_weather_data, dropAllNA, List.filter_append, emptyRawRow, DateCell.isna,
      Cell.isna]
  · simp [clean_weather_data, dropAllNA, toDated, List.filter_append, List.filterMap_append,
      DateCell.isna, parseDate]

/-! ### C9: grouping does not touch the caller's table; export shape -/

/-- C9: `group_by_month_and_season` derives its Month/Season columns on a copy
and returns only the two aggregate tables, so the caller's cleaned table is
unchanged: stripping the derived columns from `add_season_column`'s result
recovers the table exactly, and the exported CSV is a header row naming
exactly Date, Temperature, Rainfall, Humidity followed by one record per
retained row. -/
theorem group_leaves_table_unchanged (df : List CleanRow) :
    (add_season_column df).map SeasonRow.toCleanRow = df ∧
    group_by_month_and_season df =
      (groupAgg (fun r => r.monthNum) (add_season_column df),
       groupAgg (fun r => r.season) (add_season_column df)) ∧
    export_cleaned_data df =
      ["Date", "Temperature", "Rainfall", "Humidity"] ::
        df.map (fun r => [dateToISO r.date, cellToCSV r.temp, cellToCSV r.rain, cellToCSV r.hum]) ∧
    (export_cleaned_data df).length = df.length + 1 := by
  refine ⟨?_, rfl, rfl, by simp [export_cleaned_data]⟩
  have h : ∀ a ∈ df, (SeasonRow.toCleanRow ∘ fun r =>
      (⟨r, r.date.month, month_to_season r.date.month⟩ : SeasonRow)) a = id a := fun a _ => rfl
  rw [add_season_column, List.map_map, List.map_congr_left h, List.map_id]

/-! ### C1, C2, C10: per-column facts about the cleaner -/

theorem parseDate_valid {x : DateCell} {d : Date} (h : parseDate x = some d) :
    d.isValid = true := by
  cases x with
  | na => simp [parseDate] at h
  | bad => simp [parseDate] at h
  | val e =>
    by_cases he : e.isValid
    · simp only [parseDate, he, if_true, Option.some.injEq] at h
      exact h ▸ he
    · simp [parseDate, he] at h

theorem mem_toDated_valid {k : DatedRow} {l : List RawRow} (h : k ∈ toDated l) :
    k.date.isValid = true := by
  obtain ⟨a, _, ha⟩ := List.mem_filterMap.1 h
  obtain ⟨d, hd, hk⟩ := Option.map_eq_some'.1 ha
  have : k.date = d := by rw [← hk]
  exact this ▸ parseDate_valid hd

theorem fillna_isSome {v m : Option ℚ} (hm : m.isSome) : (fillna v m).isSome := by
  cases v
  · simpa [fillna] using hm
  · simp [fillna]

/-- Counterexample to C1 as stated: on `degenerateTable` (one row, valid date,
Temperature "bad") the lone row survives cleaning but its Temperature cell is
still missing — the column mean over zero valid samples is NaN and
`fillna(NaN)` is a no-op — so "no missing sentinel remains in any retained
row" does not hold for every input table. -/
theorem clean_can_retain_missing_cell :
    (clean_weather_data degenerateTable).length = 1 ∧
    ((clean_weather_data degenerateTable).map fun r => r.temp) = [none] := by
  decide

/-- C1 amended: provided each measurement column (over the rows surviving the
empty-row and date drops) has at least one validly numeric value, every row
surviving `clean_weather_data` has a valid calendar date and non-missing
numeric Temperature, Rainfall and Humidity cells. -/
theorem clean_rows_all_valid (df : List RawRow)
    (hv : ∀ c : ColId,
      (((toDated (dropAllNA df)).map fun r => toNumeric (rawCol c r)).filterMap id) ≠ []) :
    ∀ r ∈ clean_weather_data df,
      r.date.isValid = true ∧ r.temp.isSome ∧ r.rain.isSome ∧ r.hum.isSome := by
  intro r hr
  obtain ⟨k, hk, rfl⟩ := List.mem_map.1
    (by simpa [clean_weather_data, imputeColumns, selectColumns] using hr)
  have hvt := hv .temperature
  have hvr := hv .rainfall
  have hvh := hv .humidity
  simp only [rawCol] at hvt hvr hvh
  refine ⟨mem_toDated_valid hk, ?_, ?_, ?_⟩
  · exact fillna_isSome (by rw [meanOpt_eq_some _ hvt]; rfl)
  · exact fillna_isSome (by rw [meanOpt_eq_some _ hvr]; rfl)
  · exact fillna_isSome (by rw [meanOpt_eq_some _ hvh]; rfl)

/-- Witness for C1 (amended) on a concrete one-row table. -/
theorem clean_rows_all_valid_witness :
    (⟨⟨2023, 1, 5⟩, some 10, some 0, some 50⟩ : CleanRow).date.isValid = true ∧
    (some (10:ℚ)).isSome ∧ (some (0:ℚ)).isSome ∧ (some (50:ℚ)).isSome :=
  clean_rows_all_valid [⟨.val ⟨2023, 1, 5⟩, .num 10, .num 0, .num 50⟩]
    (fun c => by cases c <;> decide)
    ⟨⟨2023, 1, 5⟩, some 10, some 0, some 50⟩ (by decide)

/-- C2: a cell that is missing after coercion is imputed with the arithmetic
mean of its own column's originally-valid values — the sum of the valid
entries of that column (only) divided by their count, taken over the table as
it stands after the row drops and before any fill. -/
theorem imputed_cell_eq_mean (c : ColId) (df : List RawRow) (i : Nat)
    (h : i < (toDated (dropAllNA df)).length)
    (hmiss : toNumeric (rawCol c ((toDated (dropAllNA df)).get ⟨i, h⟩)) = none)
    (hvalid : (((toDated (dropAllNA df)).map fun r => toNumeric (rawCol c r)).filterMap id) ≠ []) :
    cleanCol c ((clean_weather_data df).get ⟨i, by
        simpa [clean_weather_data, imputeColumns, selectColumns] using h⟩) =
      some (((((toDated (dropAllNA df)).map fun r => toNumeric (rawCol c r)).filterMap id).sum) /
            ((((toDated (dropAllNA df)).map fun r => toNumeric (rawCol c r)).filterMap id).length)) := by
  have hget : ∀ hh, ((clean_weather_data df).get ⟨i, hh⟩) =
      (fun r => (⟨r.date, fillna (toNumeric r.temp)
          (meanOpt ((toDated (dropAllNA df)).map fun r => toNumeric r.temp)),
        fillna (toNumeric r.rain)
          (meanOpt ((toDated (dropAllNA df)).map fun r => toNumeric r.rain)),
        fillna (toNumeric r.hum)
          (meanOpt ((toDated (dropAllNA df)).map fun r => toNumeric r.hum))⟩ : CleanRow))
        ((toDated (dropAllNA df)).get ⟨i, h⟩) := by
    intro hh
    exact List.get_map _
  rw [hget]
  cases c <;> simp only [cleanCol, rawCol] at hmiss hvalid ⊢ <;>
    rw [hmiss, fillna_none] <;> exact meanOpt_eq_some _ hvalid

/-- Witness for C2: on the spec's scenario table the "bad" temperature of the
second row is imputed with mean(10, 20) = 15. -/
theorem imputed_cell_eq_mean_witness :
    cleanCol ColId.temperature ((clean_weather_data specScenario).get ⟨1, by decide⟩)
      = some 15 := by
  have h := imputed_cell_eq_mean ColId.temperature specScenario 1 (by decide) (by decide)
    (by decide)
  exact h.trans (by
    simp [toDated, dropAllNA, specScenario, toNumeric, parseDate, Date.isValid,
      Date.daysInMonth, Date.isLeap, DateCell.isna, Cell.isna, rawCol]
    norm_num)

/-- C10: when a measurement column has no validly numeric value after
coercion, cleaning raises no error — `clean_weather_data` is a total
function — the column's mean is undefined (`none`), the fill is a no-op, and
every cell of that column in the returned table is still missing. -/
theorem degenerate_column_stays_missing (c : ColId) (df : List RawRow)
    (hdeg : ∀ k ∈ toDated (dropAllNA df), toNumeric (rawCol c k) = none) :
    ∀ r ∈ clean_weather_data df, cleanCol c r = none := by
  intro r hr
  obtain ⟨k, hk, rfl⟩ := List.mem_map.1
    (by simpa [clean_weather_data, imputeColumns, selectColumns] using hr)
  cases c <;> simp only [cleanCol, rawCol] at hdeg ⊢
  all_goals
    rw [hdeg k hk, fillna_none]
    refine (meanOpt_eq_none_iff _).2 fun x hx => ?_
    obtain ⟨k', hk', rfl⟩ := List.mem_map.1 hx
    exact hdeg k' hk'

/-- Witness for C10 on the concrete degenerate table: the surviving row's
Temperature is still missing. -/
theorem degenerate_column_stays_missing_witness :
    cleanCol ColId.temperature (⟨⟨2023, 1, 5⟩, none, some 1, some 2⟩ : CleanRow) = none :=
  degenerate_column_stays_missing ColId.temperature degenerateTable (by decide)
    ⟨⟨2023, 1, 5⟩, none, some 1, some 2⟩ (by decide)

/-! ### C5: monthly and seasonal buckets share the same aggregation -/

theorem lookup_map_self {K A : Type} [DecidableEq K] (l : List K) (f : K → A) (k : K) :
    (l.map fun x => (x, f x)).lookup k = if k ∈ l then some (f k) else none := by
  induction l with
  | nil => simp
  | cons a t ih =>
    by_cases hk : k = a
    · subst hk
      simp [List.lookup]
    · have hb : (k == a) = false := beq_eq_false_iff_ne.2 hk
      simp [List.lookup, List.mem_cons, hk, ih, hb]

theorem groupAgg_lookup {K : Type} [DecidableEq K] (key : SeasonRow → K)
    (df : List SeasonRow) (k : K) :
    (groupAgg key df).lookup k =
      if k ∈ df.map key then some (aggregate (df.filter fun r => key r = k)) else none := by
  unfold groupAgg
  rw [lookup_map_self]
  simp [List.mem_dedup]

/-- C5: the month-of-year table buckets the cleaned rows by the month number
of their date — ignoring the year — and each bucket is aggregated as
mean(Temperature), sum(Rainfall), mean(Humidity); the seasonal table buckets
by the fixed month-to-season mapping and aggregates its buckets with the
identical three functions. -/
theorem group_by_month_and_season_buckets (df : List CleanRow) (m : Nat) (s : Season)
    (hm : ∃ r ∈ df, r.date.month = m)
    (hs : ∃ r ∈ df, month_to_season r.date.month = s) :
    (group_by_month_and_season df).1.lookup m =
      some ⟨meanOpt ((df.filter fun r => r.date.month = m).map fun r => r.temp),
            ((df.filter fun r => r.date.month = m).filterMap fun r => r.rain).sum,
            meanOpt ((df.filter fun r => r.date.month = m).map fun r => r.hum)⟩ ∧
    (group_by_month_and_season df).2.lookup s =
      some ⟨meanOpt ((df.filter fun r => month_to_season r.date.month = s).map fun r => r.temp),
            ((df.filter fun r => month_to_season r.date.month = s).filterMap fun r => r.rain).sum,
            meanOpt ((df.filter fun r => month_to_season r.date.month = s).map fun r => r.hum)⟩ := by
  constructor
  · rw [show (group_by_month_and_season df).1
        = groupAgg (fun r => r.monthNum) (add_season_column df) from rfl, groupAgg_lookup]
    rw [if_pos (by
      simp only [add_season_column, List.map_map, List.mem_map, Function.comp]
      obtain ⟨r, hr, hrm⟩ := hm
      exact ⟨r, hr, hrm⟩)]
    simp [add_season_column, aggregate, List.filter_map, List.map_map, List.filterMap_map,
      Function.comp_def]
  · rw [show (group_by_month_and_season df).2
        = groupAgg (fun r => r.season) (add_season_column df) from rfl, groupAgg_lookup]
    rw [if_pos (by
      simp only [add_season_column, List.map_map, List.mem_map, Function.comp]
      obtain ⟨r, hr, hrs⟩ := hs
      exact ⟨r, hr, hrs⟩)]
    simp [add_season_column, aggregate, List.filter_map, List.map_map, List.filterMap_map,
      Function.comp_def]

/-- Witness for C5 at month 1 (rows from 2023 and 2024 share the bucket) and
season Summer. -/
theorem group_by_month_and_season_buckets_witness :
    (group_by_month_and_season bucketsTable).1.lookup 1 =
      some ⟨meanOpt ((bucketsTable.filter fun r => r.date.month = 1).map fun r => r.temp),
            ((bucketsTable.filter fun r => r.date.month = 1).filterMap fun r => r.rain).sum,
            meanOpt ((bucketsTable.filter fun r => r.date.month = 1).map fun r => r.hum)⟩ ∧
    (group_by_month_and_season bucketsTable).2.lookup Season.summer =
      some ⟨meanOpt ((bucketsTable.filter fun r =>
              month_to_season r.date.month = Season.summer).map fun r => r.temp),
            ((bucketsTable.filter fun r =>
              month_to_season r.date.month = Season.summer).filterMap fun r => r.rain).sum,
            meanOpt ((bucketsTable.filter fun r =>
              month_to_season r.date.month = Season.summer).map fun r => r.hum)⟩ :=
  group_by_month_and_season_buckets bucketsTable 1 Season.summer (by decide) (by decide)

/-! ### C7: the max-rainfall day of the summary report -/

theorem find?_eq_get_of_first {α : Type} (l : List α) (p : α → Bool) (i : Nat) (h : i < l.length)
    (hp : p (l.get ⟨i, h⟩) = true)
    (hbefore : ∀ j (hj : j < i), p (l.get ⟨j, Nat.lt_trans hj h⟩) = false) :
    l.find? p = some (l.get ⟨i, h⟩) := by
  induction l generalizing i with
  | nil => simp at h
  | cons a t ih =>
    cases i with
    | zero => exact List.find?_cons_of_pos t hp
    | succ n =>
      have ha : p a = false := hbefore 0 (Nat.succ_pos n)
      rw [List.find?_cons_of_neg t (by simp [ha])]
      exact ih n (Nat.lt_of_succ_lt_succ h) hp
        (fun j hj => hbefore (j + 1) (Nat.succ_lt_succ hj))

/-- Counterexample to C7 as stated: in `tieTable` both rows carry the maximum
rainfall 5, the earliest tied date is 2023-05-01, yet the report's
`idxmax`-based selection returns 2023-05-02 — the first tied row in table
order, which need not be the earliest date since the cleaned table keeps the
input order. -/
theorem max_rain_day_not_earliest :
    (tieTable.map fun r => r.rain) = [some 5, some 5] ∧
    Date.le ⟨2023, 5, 1⟩ ⟨2023, 5, 2⟩ = true ∧
    (⟨2023, 5, 1⟩ : Date) ≠ ⟨2023, 5, 2⟩ ∧
    max_rain_day tieTable = some ⟨2023, 5, 2⟩ := by
  decide

/-- C7 amended: when rows tie at the maximum Rainfall value, the summary
report's "day with highest rainfall" is the date of the first row in table
order attaining the maximum (which is the earliest tied date only when the
table happens to be sorted by date). -/
theorem max_rain_day_first_in_order (df : List CleanRow) (i : Nat) (h : i < df.length) (M : ℚ)
    (hi : (df.get ⟨i, h⟩).rain = some M)
    (hub : ∀ q ∈ df.filterMap fun r => r.rain, q ≤ M)
    (hfirst : ∀ j (hj : j < i), (df.get ⟨j, Nat.lt_trans hj h⟩).rain ≠ some M) :
    max_rain_day df = some (df.get ⟨i, h⟩).date := by
  have hmem : M ∈ df.filterMap fun r => r.rain :=
    List.mem_filterMap.2 ⟨df.get ⟨i, h⟩, List.get_mem df i h, hi⟩
  have hanti : Std.Antisymm ((· : ℚ) ≤ ·) := ⟨fun hab hba => le_antisymm hab hba⟩
  have hmax : (df.filterMap fun r => r.rain).max? = some M := by
    rw [List.max?_eq_some_iff (fun a => le_refl a) (fun a b => max_choice a b)
      (fun a b c => max_le_iff)]
    exact ⟨hmem, hub⟩
  have hfind : df.find? (fun r => r.rain = some M) = some (df.get ⟨i, h⟩) :=
    find?_eq_get_of_first df _ i h (by simpa using hi)
      (fun j hj => by simpa using hfirst j hj)
  simp only [max_rain_day, hmax, hfind, Option.map_some']

/-- Witness for C7 (amended): on `tieTable` the first row in table order
attaining the maximum is row 0, and the report picks its date 2023-05-02. -/
theorem max_rain_day_first_in_order_witness :
    max_rain_day tieTable = some (⟨2023, 5, 2⟩ : Date) := by
  have := max_rain_day_first_in_order tieTable 0 (by decide) 5 (by decide) (by decide)
    (fun j hj => absurd hj (Nat.not_lt_zero j))
  simpa using this

/-! ### C3: the cleaner is idempotent -/

theorem toNumeric_optToCell (v : Option ℚ) : toNumeric (optToCell v) = v := by
  cases v <;> rfl

theorem filterMap_eq_map_of_some {α β : Type} (l : List α) (f : α → Option β) (g : α → β)
    (h : ∀ a ∈ l, f a = some (g a)) : l.filterMap f = l.map g := by
  induction l with
  | nil => rfl
  | cons a t ih =>
    rw [List.filterMap_cons, h a (List.mem_cons_self a t), List.map_cons,
      ih fun x hx => h x (List.mem_cons_of_mem a hx)]

theorem fillna_meanOpt_fix (xs : List (Option ℚ)) (y : Option ℚ)
    (hy : y ∈ xs.map fun v => fillna v (meanOpt xs)) :
    fillna y (meanOpt (xs.map fun v => fillna v (meanOpt xs))) = y := by
  obtain ⟨v, hv, rfl⟩ := List.mem_map.1 hy
  cases hmean : meanOpt xs with
  | some m => cases v <;> simp [fillna, hmean]
  | none =>
    have hall : ∀ x ∈ xs, x = none := (meanOpt_eq_none_iff xs).1 hmean
    have h2 : meanOpt (xs.map fun v => fillna v none) = none := by
      refine (meanOpt_eq_none_iff _).2 fun x hx => ?_
      obtain ⟨w, hw, rfl⟩ := List.mem_map.1 hx
      rw [hall w hw, fillna_none]
    simp only [hall v hv, fillna_none, h2]

/-- C3: running the cleaner on its own (reinjected) output returns that
output unchanged: every surviving row still has a parseable valid date, no
row is entirely empty, coercion is the identity on the reinjected numeric
cells, and each column is either fully numeric (so the fill is a no-op) or
fully missing (so its mean is NaN and the fill is again a no-op). -/
theorem clean_idempotent (df : List RawRow) :
    clean_weather_data ((clean_weather_data df).map CleanRow.toRaw) = clean_weather_data df := by
  have hvalid : ∀ r ∈ clean_weather_data df, r.date.isValid = true := fun r hr => by
    obtain ⟨k, hk, rfl⟩ := List.mem_map.1
      (by simpa [clean_weather_data, imputeColumns, selectColumns] using hr)
    exact mem_toDated_valid hk
  have hdrop : dropAllNA ((clean_weather_data df).map CleanRow.toRaw)
      = (clean_weather_data df).map CleanRow.toRaw := by
    refine List.filter_eq_self.mpr fun x hx => ?_
    obtain ⟨r, _, rfl⟩ := List.mem_map.1 hx
    simp [CleanRow.toRaw, DateCell.isna]
  have hdated : toDated ((clean_weather_data df).map CleanRow.toRaw)
      = (clean_weather_data df).map cleanRowToDated := by
    rw [toDated, List.filterMap_map]
    refine filterMap_eq_map_of_some _ _ _ fun r hr => ?_
    simp [Function.comp, CleanRow.toRaw, cleanRowToDated, parseDate, hvalid r hr]
  have hcolT : ((clean_weather_data df).map cleanRowToDated).map (fun r => toNumeric r.temp)
      = (clean_weather_data df).map fun r => r.temp := by
    rw [List.map_map]
    exact List.map_congr_left fun r _ => toNumeric_optToCell r.temp
  have hcolR : ((clean_weather_data df).map cleanRowToDated).map (fun r => toNumeric r.rain)
      = (clean_weather_data df).map fun r => r.rain := by
    rw [List.map_map]
    exact List.map_congr_left fun r _ => toNumeric_optToCell r.rain
  have hcolH : ((clean_weather_data df).map cleanRowToDated).map (fun r => toNumeric r.hum)
      = (clean_weather_data df).map fun r => r.hum := by
    rw [List.map_map]
    exact List.map_congr_left fun r _ => toNumeric_optToCell r.hum
  have houtT : (clean_weather_data df).map (fun r => r.temp)
      = ((toDated (dropAllNA df)).map fun r => toNumeric r.temp).map
          (fun v => fillna v (meanOpt ((toDated (dropAllNA df)).map fun r => toNumeric r.temp))) := by
    simp [clean_weather_data, imputeColumns, selectColumns, List.map_map]
  have houtR : (clean_weather_data df).map (fun r => r.rain)
      = ((toDated (dropAllNA df)).map fun r => toNumeric r.rain).map
          (fun v => fillna v (meanOpt ((toDated (dropAllNA df)).map fun r => toNumeric r.rain))) := by
    simp [clean_weather_data, imputeColumns, selectColumns, List.map_map]
  have houtH : (clean_weather_data df).map (fun r => r.hum)
      = ((toDated (dropAllNA df)).map fun r => toNumeric r.hum).map
          (fun v => fillna v (meanOpt ((toDated (dropAllNA df)).map fun r => toNumeric r.hum))) := by
    simp [clean_weather_data, imputeColumns, selectColumns, List.map_map]
  have hrowfix : ∀ r ∈ clean_weather_data df,
      (⟨r.date, fillna r.temp (meanOpt ((clean_weather_data df).map fun r => r.temp)),
        fillna r.rain (meanOpt ((clean_weather_data df).map fun r => r.rain)),
        fillna r.hum (meanOpt ((clean_weather_data df).map fun r => r.hum))⟩ : CleanRow) = r := by
    intro r hr
    have ht : fillna r.temp (meanOpt ((clean_weather_data df).map fun r => r.temp)) = r.temp := by
      rw [houtT]
      exact fillna_meanOpt_fix _ _ (by rw [← houtT]; exact List.mem_map_of_mem _ hr)
    have hn : fillna r.rain (meanOpt ((clean_weather_data df).map fun r => r.rain)) = r.rain := by
      rw [houtR]
      exact fillna_meanOpt_fix _ _ (by rw [← houtR]; exact List.mem_map_of_mem _ hr)
    have hh : fillna r.hum (meanOpt ((clean_weather_data df).map fun r => r.hum)) = r.hum := by
      rw [houtH]
      exact fillna_meanOpt_fix _ _ (by rw [← houtH]; exact List.mem_map_of_mem _ hr)
    cases r
    simp_all
  show imputeColumns (selectColumns (toDated (dropAllNA
      ((clean_weather_data df).map CleanRow.toRaw)))) = clean_weather_data df
  rw [hdrop, hdated, selectColumns]
  simp only [imputeColumns, hcolT, hcolR, hcolH, List.map_map]
  have : ∀ r ∈ clean_weather_data df,
      ((fun k => (⟨k.date,
          fillna (toNumeric k.temp) (meanOpt ((clean_weather_data df).map fun r => r.temp)),
          fillna (toNumeric k.rain) (meanOpt ((clean_weather_data df).map fun r => r.rain)),
          fillna (toNumeric k.hum) (meanOpt ((clean_weather_data df).map fun r => r.hum))⟩
            : CleanRow)) ∘ cleanRowToDated) r = id r := by
    intro r hr
    show (⟨r.date,
        fillna (toNumeric (optToCell r.temp)) (meanOpt ((clean_weather_data df).map fun r => r.temp)),
        fillna (toNumeric (optToCell r.rain)) (meanOpt ((clean_weather_data df).map fun r => r.rain)),
        fillna (toNumeric (optToCell r.hum)) (meanOpt ((clean_weather_data df).map fun r => r.hum))⟩
          : CleanRow) = r
    rw [toNumeric_optToCell, toNumeric_optToCell, toNumeric_optToCell]
    exact hrowfix r hr
  rw [List.map_congr_left this, List.map_id]
